import Mathlib

/-!
Verification of the simple atom interaction simulator.

The development shallowly embeds the simulation core (physics.py,
chemistry.py, sim_core.py) in Lean. Python floats are modelled as real
numbers, math.sqrt as Real.sqrt, int(x // c) as the integer floor of x / c,
and math.ceil as the integer ceiling. Randomness (random.random and
random.gauss draws) is modelled by explicit streams of draw values passed as
parameters and consumed in exactly the order the source consumes them;
random.choice over a list is modelled by one draw u picking the element at
index floor(u * len). Particle types are Fin 5, matching range(n_types) with
n_types = 5 and the five-entry ELECTRONEG and VALENCE_ELECTRONS tables. The
string bond-type tags of the source are modelled by a closed inductive type
with the same three values.
-/

namespace AtomSim

noncomputable section

/-! ### Constants from physics.py -/

def TIME_STEP : ℝ := 0.2
def MAX_SPEED : ℝ := 9.5
def THERMOSTAT_STRENGTH : ℝ := 0.02
def LANGEVIN_GAMMA : ℝ := 0.04
def BOND_SPRING_CONSTANT : ℝ := 0.32
def BOND_DAMPING : ℝ := 0.03
def BOND_BREAK_THRESHOLD : ℝ := 1.9
def BOND_FORCE_CAP : ℝ := 6.5

/-- Bond soft-start ramp length in steps; compared against the integer bond
age, so it is kept as a natural number. -/
def BOND_SOFTSTART_STEPS : ℕ := 12

def WORLD_WIDTH : ℝ := 800
def WORLD_HEIGHT : ℝ := 800

/-! ### Constants from chemistry.py -/

def TARGET_SHELL : ℝ := 5

/-- Valence electron count per particle type, chemistry.py line 6. -/
def VALENCE_ELECTRONS : Fin 5 → ℝ
  | 0 => 1
  | 1 => 2
  | 2 => 3
  | 3 => 4
  | 4 => 5

/-- Electronegativity per particle type, chemistry.py line 8. -/
def ELECTRONEG : Fin 5 → ℝ
  | 0 => 1.0
  | 1 => 1.6
  | 2 => 2.1
  | 3 => 2.6
  | 4 => 3.1

/-- Per-type bonding preferences, chemistry.py TYPE_PREF. The mode string is
carried for completeness though no embedded operation reads it. -/
structure TypePref where
  max_bonds : ℤ
  mode : String
  prefer_multiple : Bool
  prefer_branch : Bool

def TYPE_PREF : Fin 5 → TypePref
  | 0 => ⟨1, "terminal", false, false⟩
  | 1 => ⟨2, "linear", false, false⟩
  | 2 => ⟨3, "branched", false, true⟩
  | 3 => ⟨4, "multi", true, true⟩
  | 4 => ⟨1, "inertish", false, false⟩

def T_GEOM_MAX : ℝ := 0.9
def T_IONIC_MIN : ℝ := 1.6
def CAPTURE_RADIUS : ℝ := 34.0
def BOND_FORM_RADIUS : ℝ := 26.0
def REL_V2_BASE : ℝ := 6.0
def REL_V2_STABIL_BONUS : ℝ := 8.0
def P_BOND_BASE : ℝ := 0.28
def P_BOND_DEFICIT_GAIN : ℝ := 0.16
def P_BOND_LOW_T_BOOST : ℝ := 0.20
def P_BOND_HIGH_T_BOOST : ℝ := 0.10
def P_DISSOC_BASE : ℝ := 0.005
def P_DISSOC_HIGH_T : ℝ := 0.05

/-! ### Data model -/

/-- Bond type tag; the source uses the strings covalent, ionic and metallic. -/
inductive BondType where
  | covalent
  | ionic
  | metallic
  deriving DecidableEq

/-- Particle record, sim_core.py class Particle: position, velocity, a fixed
type, and the adjacency list of bonded particle indices. -/
structure Particle where
  x : ℝ
  y : ℝ
  vx : ℝ
  vy : ℝ
  type : Fin 5
  bonds : List ℕ

instance : Inhabited Particle := ⟨⟨0, 0, 0, 0, 0, []⟩⟩

/-- Bond record, chemistry.py class Bond. -/
structure Bond where
  i : ℕ
  j : ℕ
  type : BondType
  order : ℕ
  length : ℝ
  dipole : ℝ × ℝ
  donor : Option ℕ
  acceptor : Option ℕ
  age : ℕ

/-- Particle lookup by index; Python indexing particles[i] is always in
range at every call site, so the default value is never observed there. -/
def getP (particles : List Particle) (i : ℕ) : Particle :=
  particles.getD i default

/-- Draw the next value of a random stream, a model of random.random(). -/
def randDraw : List ℝ → ℝ × List ℝ
  | [] => (0, [])
  | u :: rest => (u, rest)

/-! ### physics.py -/

/-- Periodic boundary shortest displacement, physics.py wrap. -/
def wrap (dx dy : ℝ) : ℝ × ℝ :=
  let dx := if dx > WORLD_WIDTH * 0.5 then dx - WORLD_WIDTH
            else if dx < -(WORLD_WIDTH * 0.5) then dx + WORLD_WIDTH
            else dx
  let dy := if dy > WORLD_HEIGHT * 0.5 then dy - WORLD_HEIGHT
            else if dy < -(WORLD_HEIGHT * 0.5) then dy + WORLD_HEIGHT
            else dy
  (dx, dy)

/-- Squared length of the wrapped displacement from p_i to p_j: the idiom
dx, dy = wrap(xj - xi, yj - yi); r2 = dx*dx + dy*dy that opens every pairwise
routine of physics.py and chemistry.py. -/
def wrapped_r2 (p_i p_j : Particle) : ℝ :=
  (wrap (p_j.x - p_i.x) (p_j.y - p_i.y)).1 * (wrap (p_j.x - p_i.x) (p_j.y - p_i.y)).1 +
  (wrap (p_j.x - p_i.x) (p_j.y - p_i.y)).2 * (wrap (p_j.x - p_i.x) (p_j.y - p_i.y)).2

/-- Squared relative velocity of a pair, the idiom rvx*rvx + rvy*rvy. -/
def rel_v2 (p_i p_j : Particle) : ℝ :=
  ((p_j.vx - p_i.vx) * (p_j.vx - p_i.vx)) + ((p_j.vy - p_i.vy) * (p_j.vy - p_i.vy))

/-- Speed cap, physics.py limit_speed. -/
def limit_speed (vx vy max_speed : ℝ) : ℝ × ℝ :=
  let v2 := vx * vx + vy * vy
  if v2 > max_speed * max_speed then
    let s := max_speed / Real.sqrt v2
    (vx * s, vy * s)
  else (vx, vy)

/-- Soft-start ramp factor of the bond spring constant, the lines 87 to 89 of
physics.py compute_bond_force: soften is 1.0 unless the bond age is below
BOND_SOFTSTART_STEPS, in which case it is (age + 1) / BOND_SOFTSTART_STEPS. -/
def soften (age : ℕ) : ℝ :=
  if age < BOND_SOFTSTART_STEPS then ((age : ℝ) + 1) / (BOND_SOFTSTART_STEPS : ℝ)
  else 1.0

/-- Bonded spring and damping force, physics.py compute_bond_force. Returns
the force on p_i and the broken-by-distance flag. -/
def compute_bond_force (p_i p_j : Particle) (bond : Bond) : ℝ × ℝ × Bool :=
  if wrapped_r2 p_i p_j < 1e-9 then (0.0, 0.0, false)
  else
    let r := Real.sqrt (wrapped_r2 p_i p_j)
    let nx := (wrap (p_j.x - p_i.x) (p_j.y - p_i.y)).1 / r
    let ny := (wrap (p_j.x - p_i.x) (p_j.y - p_i.y)).2 / r
    let k_eff := BOND_SPRING_CONSTANT * (bond.order : ℝ) * soften bond.age *
      (1.0 + 0.18 * ((min p_i.bonds.length p_j.bonds.length : ℕ) : ℝ))
    let F_spring := k_eff * (r - bond.length)
    let F_damp := BOND_DAMPING *
      ((p_j.vx - p_i.vx) * nx + (p_j.vy - p_i.vy) * ny) * (bond.order : ℝ)
    let F_total := F_spring + F_damp
    let F_total := if F_total > BOND_FORCE_CAP then BOND_FORCE_CAP
                   else if F_total < -BOND_FORCE_CAP then -BOND_FORCE_CAP
                   else F_total
    (nx * F_total, ny * F_total,
     if Real.sqrt (wrapped_r2 p_i p_j) > bond.length * BOND_BREAK_THRESHOLD then true
     else false)

/-- Langevin friction and noise, physics.py apply_langevin. The source line
146 reads a global name bonding_factor that is assigned nowhere in the
repository, so evaluating the function raises NameError in Python; the
unbound name is modelled as an empty Option and the failure as none. The
gauss draws g1 and g2 stand for random.gauss(0, 1) samples scaled by sigma. -/
def bonding_factor : Option ℝ := none

def apply_langevin (p : Particle) (temperature : ℝ) (bond_count : ℕ)
    (avg_bond_order : ℝ) (g1 g2 : ℝ) : Option Particle :=
  let gamma := LANGEVIN_GAMMA
  match bonding_factor with
  | none => none
  | some bf =>
    let sigma := Real.sqrt (2.0 * gamma * temperature) * bf
    some { p with vx := p.vx + (-gamma * p.vx + g1 * sigma),
                  vy := p.vy + (-gamma * p.vy + g2 * sigma) }

/-- Sequential application of apply_langevin to every particle, the second
loop of physics.py integrate: the loop computes the bond count and the
average order surrogate (0.0 without bonds, 1.5 otherwise) and passes them
on; noise values are consumed one pair per particle. A Python NameError in
one call aborts the whole loop, modelled by the Option. -/
def apply_langevin_all (ps : List Particle) (temperature : ℝ)
    (noise : List (ℝ × ℝ)) : Option (List Particle) :=
  match ps, noise with
  | [], _ => some []
  | p :: rest, [] =>
    match apply_langevin p temperature p.bonds.length
        (if p.bonds.length = 0 then 0.0 else 1.5) 0 0 with
    | none => none
    | some p2 =>
      match apply_langevin_all rest temperature [] with
      | none => none
      | some rest2 => some (p2 :: rest2)
  | p :: rest, g :: gs =>
    match apply_langevin p temperature p.bonds.length
        (if p.bonds.length = 0 then 0.0 else 1.5) g.1 g.2 with
    | none => none
    | some p2 =>
      match apply_langevin_all rest temperature gs with
      | none => none
      | some rest2 => some (p2 :: rest2)

/-- Global velocity rescale thermostat, physics.py rescale_velocities. -/
def rescale_velocities (particles : List Particle) (temperature : ℝ) : List Particle :=
  if particles.isEmpty then particles
  else
    let Ek := particles.foldl (fun a p => a + p.vx * p.vx + p.vy * p.vy) 0.0
    let T_current := Ek / (particles.length : ℝ)
    if T_current < 1e-9 then particles
    else
      let scale_target := Real.sqrt (temperature / T_current)
      let scale := 1.0 + (scale_target - 1.0) * THERMOSTAT_STRENGTH
      particles.map fun p => { p with vx := p.vx * scale, vy := p.vy * scale }

/-- Semi-implicit Euler step, physics.py integrate: force application and
speed clamp, then the Langevin loop (which raises NameError in the source),
then the thermostat and the position update with periodic wrap-around. -/
def integrate (particles : List Particle) (forces : List (ℝ × ℝ))
    (temperature : ℝ) (noise : List (ℝ × ℝ)) : Option (List Particle) :=
  let dt := TIME_STEP
  let kicked := (particles.zip forces).map fun pf =>
    let p := pf.1
    let vx := p.vx + pf.2.1 * dt
    let vy := p.vy + pf.2.2 * dt
    let v := limit_speed vx vy MAX_SPEED
    { p with vx := v.1, vy := v.2 }
  match apply_langevin_all kicked temperature noise with
  | none => none
  | some ps =>
    let ps := rescale_velocities ps temperature
    some (ps.map fun p =>
      let x := p.x + p.vx * dt
      let x := if x < 0 then x + WORLD_WIDTH
               else if x ≥ WORLD_WIDTH then x - WORLD_WIDTH else x
      let y := p.y + p.vy * dt
      let y := if y < 0 then y + WORLD_HEIGHT
               else if y ≥ WORLD_HEIGHT then y - WORLD_HEIGHT else y
      { p with x := x, y := y })

/-! ### chemistry.py -/

/-- Shell fill of a particle, chemistry.py shell_fill: the base valence
electron count plus the contribution of every ledger bond touching the
particle. -/
def shell_fill (p_idx : ℕ) (particles : List Particle) (bonds : List Bond) : ℝ :=
  let p := getP particles p_idx
  bonds.foldl
    (fun fill b =>
      if b.i ≠ p_idx ∧ b.j ≠ p_idx then fill
      else if b.type = BondType.covalent then fill + (b.order : ℝ)
      else if b.type = BondType.ionic then
        (if b.acceptor = some p_idx then fill + (b.order : ℝ)
         else if b.donor = some p_idx then fill - (b.order : ℝ)
         else fill)
      else fill + 0.5 * (b.order : ℝ))
    (VALENCE_ELECTRONS p.type)

/-- Shell deficit, chemistry.py shell_deficit. -/
def shell_deficit (p_idx : ℕ) (particles : List Particle) (bonds : List Bond) : ℝ :=
  max 0.0 (TARGET_SHELL - shell_fill p_idx particles bonds)

/-- Dynamic valence cap, chemistry.py dynamic_max_bonds: base cap of the
type plus the ceiling of 0.7 times the deficit, clamped into 0..5. -/
def dynamic_max_bonds (p_idx : ℕ) (particles : List Particle) (bonds : List Bond) : ℤ :=
  let p := getP particles p_idx
  let base := (TYPE_PREF p.type).max_bonds
  let d := shell_deficit p_idx particles bonds
  let extra := ⌈d * 0.7⌉
  max 0 (min 5 (base + extra))

/-- Bond classification by electronegativity gap and temperature regime,
chemistry.py classify_bond_type_temp. -/
def classify_bond_type_temp (p_i p_j : Particle) (temperature : ℝ) : BondType :=
  let diff := |ELECTRONEG p_i.type - ELECTRONEG p_j.type|
  if temperature ≤ T_GEOM_MAX then
    (if diff < 1.6 then BondType.covalent else BondType.ionic)
  else if temperature ≥ T_IONIC_MIN then
    (if diff > 0.9 then BondType.ionic else BondType.metallic)
  else if diff < 0.35 then BondType.metallic
  else if diff < 1.2 then BondType.covalent
  else BondType.ionic

/-- Dipole direction from electronegativity, chemistry.py dipole_from_EN. -/
def dipole_from_EN (p_i p_j : Particle) : ℝ × ℝ :=
  let e1 := ELECTRONEG p_i.type
  let e2 := ELECTRONEG p_j.type
  let w := wrap (p_j.x - p_i.x) (p_j.y - p_i.y)
  let dx := w.1
  let dy := w.2
  let r2 := dx * dx + dy * dy
  if r2 < 1e-9 then (0.0, 0.0)
  else
    let r := Real.sqrt r2
    let nx := dx / r
    let ny := dy / r
    if e2 > e1 then (nx, ny) else (-nx, -ny)

/-- Capture strength of prebond_damp: 0.25 times the deficit factor times
the temperature factor. -/
def damp_capture (i j : ℕ) (particles : List Particle) (bonds : List Bond)
    (temperature : ℝ) : ℝ :=
  0.25 * min 1.0 ((shell_deficit i particles bonds + shell_deficit j particles bonds) / 5.0) *
    (if temperature ≤ T_GEOM_MAX then 1.0 else 0.6)

/-- Pre-reactive velocity capture, chemistry.py prebond_damp: partially
equalizes the velocities of a close pair with unmet deficit. Only the two
particle records change; ledger and adjacency are untouched. -/
def prebond_damp (i j : ℕ) (particles : List Particle) (bonds : List Bond)
    (temperature : ℝ) : List Particle :=
  if shell_deficit i particles bonds ≤ 0 ∧ shell_deficit j particles bonds ≤ 0 then particles
  else if wrapped_r2 (getP particles i) (getP particles j) >
      CAPTURE_RADIUS * CAPTURE_RADIUS then particles
  else
    (particles.set i
      { getP particles i with
        vx := (getP particles i).vx +
          ((getP particles j).vx - (getP particles i).vx) *
            damp_capture i j particles bonds temperature * 0.5,
        vy := (getP particles i).vy +
          ((getP particles j).vy - (getP particles i).vy) *
            damp_capture i j particles bonds temperature * 0.5 }).set j
      { getP particles j with
        vx := (getP particles j).vx -
          ((getP particles j).vx - (getP particles i).vx) *
            damp_capture i j particles bonds temperature * 0.5,
        vy := (getP particles j).vy -
          ((getP particles j).vy - (getP particles i).vy) *
            damp_capture i j particles bonds temperature * 0.5 }

/-- Formation probability of try_form_bond: base plus deficit gain plus the
temperature-regime boost plus the branching-preference bonus. -/
def form_probability (i j : ℕ) (particles : List Particle) (bonds : List Bond)
    (temperature : ℝ) : ℝ :=
  (if temperature ≤ T_GEOM_MAX then
     P_BOND_BASE + P_BOND_DEFICIT_GAIN *
       (shell_deficit i particles bonds + shell_deficit j particles bonds) +
       P_BOND_LOW_T_BOOST
   else if temperature ≥ T_IONIC_MIN then
     P_BOND_BASE + P_BOND_DEFICIT_GAIN *
       (shell_deficit i particles bonds + shell_deficit j particles bonds) +
       P_BOND_HIGH_T_BOOST
   else
     P_BOND_BASE + P_BOND_DEFICIT_GAIN *
       (shell_deficit i particles bonds + shell_deficit j particles bonds)) +
  (if (TYPE_PREF (getP particles i).type).prefer_branch ∨
      (TYPE_PREF (getP particles j).type).prefer_branch then (0.08 : ℝ) else 0)

/-- Order escalation block of try_form_bond: for a covalent bond at low
temperature and high combined deficit, one draw may raise the order to two
and a further draw may raise it to three; returns the order and the rest of
the draw stream. -/
def bond_order_roll (bond_type : BondType) (prefer_multi : Bool) (di dj temperature : ℝ)
    (rand : List ℝ) : ℕ × List ℝ :=
  if bond_type = BondType.covalent then
    let first :=
      if temperature ≤ T_GEOM_MAX ∧ di + dj ≥ 3 then
        ((if (randDraw rand).1 < (if prefer_multi then (0.35 : ℝ) + 0.20 else 0.35) then 2
          else 1),
         (randDraw rand).2)
      else (1, rand)
    if temperature ≤ T_GEOM_MAX ∧ di + dj ≥ 5 ∧ first.1 = 2 then
      ((if (randDraw first.2).1 < (if prefer_multi then (0.18 : ℝ) else 0.08) then 3
        else first.1),
       (randDraw first.2).2)
    else first
  else (1, rand)

/-- Equilibrium length of a fresh bond: the current distance clamped into
the band of the bond type. -/
def fresh_bond_length (bond_type : BondType) (r : ℝ) : ℝ :=
  if bond_type = BondType.covalent then max 12.5 (min 18.0 r)
  else if bond_type = BondType.ionic then max 14.0 (min 21.0 r)
  else max 15.0 (min 22.0 r)

/-- Stochastic bond formation, chemistry.py try_form_bond. Returns the
formed flag, the updated particle list and ledger, and the rest of the
random stream. The guards return false in the order of the source: valence
cap of either endpoint, both deficits spent, formation radius, relative
speed gate, probability draw. On success the bond record is built, appended
to the ledger, and both adjacency lists gain the partner index. Call sites
always pass distinct in-range indices. -/
def try_form_bond (i j : ℕ) (particles : List Particle) (bonds : List Bond)
    (temperature : ℝ) (rand : List ℝ) :
    Bool × List Particle × List Bond × List ℝ :=
  if ((getP particles i).bonds.length : ℤ) ≥ dynamic_max_bonds i particles bonds then
    (false, particles, bonds, rand)
  else if ((getP particles j).bonds.length : ℤ) ≥ dynamic_max_bonds j particles bonds then
    (false, particles, bonds, rand)
  else if shell_deficit i particles bonds ≤ 0 ∧ shell_deficit j particles bonds ≤ 0 then
    (false, particles, bonds, rand)
  else if wrapped_r2 (getP particles i) (getP particles j) >
      BOND_FORM_RADIUS * BOND_FORM_RADIUS then
    (false, particles, bonds, rand)
  else if rel_v2 (getP particles i) (getP particles j) >
      REL_V2_BASE * temperature +
        REL_V2_STABIL_BONUS *
          (shell_deficit i particles bonds + shell_deficit j particles bonds) / 3.5 then
    (false, particles, bonds, rand)
  else if (randDraw rand).1 > min 0.97 (form_probability i j particles bonds temperature) then
    (false, particles, bonds, (randDraw rand).2)
  else
    (true,
     (particles.set i
        { getP particles i with bonds := (getP particles i).bonds ++ [j] }).set j
       { getP (particles.set i
           { getP particles i with bonds := (getP particles i).bonds ++ [j] }) j with
         bonds := (getP (particles.set i
           { getP particles i with bonds := (getP particles i).bonds ++ [j] }) j).bonds ++ [i] },
     bonds ++
       [⟨i, j,
         classify_bond_type_temp (getP particles i) (getP particles j) temperature,
         (bond_order_roll
           (classify_bond_type_temp (getP particles i) (getP particles j) temperature)
           ((TYPE_PREF (getP particles i).type).prefer_multiple ||
            (TYPE_PREF (getP particles j).type).prefer_multiple)
           (shell_deficit i particles bonds) (shell_deficit j particles bonds)
           temperature (randDraw rand).2).1,
         fresh_bond_length
           (classify_bond_type_temp (getP particles i) (getP particles j) temperature)
           (Real.sqrt (wrapped_r2 (getP particles i) (getP particles j))),
         dipole_from_EN (getP particles i) (getP particles j),
         (if classify_bond_type_temp (getP particles i) (getP particles j) temperature =
             BondType.ionic then
            (if ELECTRONEG (getP particles i).type > ELECTRONEG (getP particles j).type then
               some j
             else some i)
          else none),
         (if classify_bond_type_temp (getP particles i) (getP particles j) temperature =
             BondType.ionic then
            (if ELECTRONEG (getP particles i).type > ELECTRONEG (getP particles j).type then
               some i
             else some j)
          else none),
         0⟩],
     (bond_order_roll
       (classify_bond_type_temp (getP particles i) (getP particles j) temperature)
       ((TYPE_PREF (getP particles i).type).prefer_multiple ||
        (TYPE_PREF (getP particles j).type).prefer_multiple)
       (shell_deficit i particles bonds) (shell_deficit j particles bonds)
       temperature (randDraw rand).2).2)

/-- Thermal break threshold base of try_break_bond: the type-dependent base,
reduced at high temperature for non-covalent bonds, scaled by the
cooperativity cluster factor. -/
def break_base (bond : Bond) (particles : List Particle) (temperature : ℝ) : ℝ :=
  (if temperature ≥ T_IONIC_MIN ∧ bond.type ≠ BondType.covalent then
     (if bond.type = BondType.covalent then (18.0 : ℝ) else 12.0) * 0.7
   else (if bond.type = BondType.covalent then (18.0 : ℝ) else 12.0)) *
  (1.0 + 0.2 *
    ((min (getP particles bond.i).bonds.length (getP particles bond.j).bonds.length : ℕ) : ℝ))

/-- Mechanical and thermal bond break test, chemistry.py try_break_bond. -/
def try_break_bond (bond : Bond) (particles : List Particle) (temperature : ℝ) : Bool :=
  if Real.sqrt (wrapped_r2 (getP particles bond.i) (getP particles bond.j)) >
      bond.length * BOND_BREAK_THRESHOLD * (1.0 + 0.2 * ((bond.order : ℝ) - 1)) then true
  else if rel_v2 (getP particles bond.i) (getP particles bond.j) >
      break_base bond particles temperature * temperature * (bond.order : ℝ) then true
  else false

/-- Single removal entry point, chemistry.py remove_bond_between: pops the
first ledger entry of the unordered pair and removes each endpoint from the
adjacency list of the other. Returns the ledger and particle list in the
argument order of the source. -/
def remove_bond_between (i j : ℕ) (bonds : List Bond) (particles : List Particle) :
    List Bond × List Particle :=
  let bonds := bonds.eraseP fun b =>
    decide ((b.i = i ∧ b.j = j) ∨ (b.i = j ∧ b.j = i))
  let p_i := getP particles i
  let particles :=
    if j ∈ p_i.bonds then particles.set i { p_i with bonds := p_i.bonds.erase j }
    else particles
  let p_j := getP particles j
  let particles :=
    if i ∈ p_j.bonds then particles.set j { p_j with bonds := p_j.bonds.erase i }
    else particles
  (bonds, particles)

/-- Addition reaction, chemistry.py reaction_addition: bond formation is
attempted only when exactly one endpoint already has bonds. -/
def reaction_addition (i j : ℕ) (bonds : List Bond) (particles : List Particle)
    (temperature : ℝ) (rand : List ℝ) :
    Bool × List Particle × List Bond × List ℝ :=
  let p_i := getP particles i
  let p_j := getP particles j
  if Xor' (0 < p_i.bonds.length) (0 < p_j.bonds.length) then
    try_form_bond i j particles bonds temperature rand
  else (false, particles, bonds, rand)

/-- Substitution reaction, chemistry.py reaction_substitution: above the
temperature floor, the lowest-electronegativity neighbor of i is displaced
by a sufficiently more electronegative candidate j. -/
def reaction_substitution (i j : ℕ) (bonds : List Bond) (particles : List Particle)
    (temperature : ℝ) (rand : List ℝ) :
    Bool × List Particle × List Bond × List ℝ :=
  if temperature < 1.05 then (false, particles, bonds, rand)
  else
    let p_i := getP particles i
    let p_j := getP particles j
    if p_i.bonds.length = 0 then (false, particles, bonds, rand)
    else
      let e_j := ELECTRONEG p_j.type
      let weakest := p_i.bonds.foldl
        (fun (acc : Option ℕ × ℝ) k =>
          let e_k := ELECTRONEG (getP particles k).type
          if e_k < acc.2 then (some k, e_k) else acc)
        (none, 999)
      match weakest.1 with
      | none => (false, particles, bonds, rand)
      | some k =>
        if e_j > weakest.2 + 0.10 then
          let rem := remove_bond_between i k bonds particles
          try_form_bond i j rem.2 rem.1 temperature rand
        else (false, particles, bonds, rand)

/-- Dissociation reaction, chemistry.py reaction_dissociation: a particle
with more than one bond loses a random one with a small probability. The
random.choice call is modelled by one draw picking an index. -/
def reaction_dissociation (i : ℕ) (bonds : List Bond) (particles : List Particle)
    (temperature : ℝ) (rand : List ℝ) :
    Bool × List Particle × List Bond × List ℝ :=
  let p_i := getP particles i
  if p_i.bonds.length ≤ 1 then (false, particles, bonds, rand)
  else
    let prob := P_DISSOC_BASE +
      (if temperature ≥ T_IONIC_MIN then P_DISSOC_HIGH_T * (temperature - T_IONIC_MIN)
       else 0)
    let prob := prob / (1.0 + 0.6 * ((p_i.bonds.length : ℝ) - 1))
    let d1 := randDraw rand
    if d1.1 < min 0.5 prob then
      let d2 := randDraw d1.2
      let k := p_i.bonds.getD (⌊d2.1 * (p_i.bonds.length : ℝ)⌋).toNat 0
      let rem := remove_bond_between i k bonds particles
      (true, rem.2, rem.1, d2.2)
    else (false, particles, bonds, d1.2)

/-! ### sim_core.py -/

/-- Pair reaction pipeline, sim_core.py Simulation private method
process_reactions: distance gate, prebond damping, formation attempt with
early return, then addition, substitution and dissociation in order. The
boolean result of reaction_addition is discarded by the source exactly as
written here. -/
def process_reactions (i j : ℕ) (particles : List Particle) (bonds : List Bond)
    (temperature : ℝ) (rand : List ℝ) :
    List Particle × List Bond × List ℝ :=
  if wrapped_r2 (getP particles i) (getP particles j) > 34.0 * 34.0 then
    (particles, bonds, rand)
  else
    let form := try_form_bond i j (prebond_damp i j particles bonds temperature) bonds
      temperature rand
    if form.1 then (form.2.1, form.2.2.1, form.2.2.2)
    else
      let add := reaction_addition i j form.2.2.1 form.2.1 temperature form.2.2.2
      let sub := reaction_substitution i j add.2.2.1 add.2.1 temperature add.2.2.2
      let dis := reaction_dissociation i sub.2.2.1 sub.2.1 temperature sub.2.2.2
      (dis.2.1, dis.2.2.1, dis.2.2.2)

/-- Routing decision of the pair loop of sim_core.py Simulation.step, lines
93 to 105: for index i with neighbor candidate j, the first component says
whether the non-bonded force is accumulated and the second whether the pair
is routed into process_reactions. The source continues (skipping both) when
j is at most i and also when j is in the adjacency list of i. -/
def step_pair_route (i j : ℕ) (adj_i : List ℕ) : Bool × Bool :=
  if j ≤ i then (false, false)
  else if j ∈ adj_i then (false, false)
  else (true, true)

/-! ### Spatial grid, sim_core.py SpatialGrid -/

/-- Uniform grid over positions: the insertion log of index and cell pairs.
The dict of lists of the source keeps, per cell, the indices in insertion
order; the log representation below yields exactly those per-cell lists. -/
structure SpatialGrid where
  cell_size : ℝ
  entries : List (ℕ × ℤ × ℤ)

/-- Cell bucketing, sim_core.py SpatialGrid.insert: int(x // cell_size) is
the floor of x / cell_size. -/
def SpatialGrid.insert (g : SpatialGrid) (idx : ℕ) (x y : ℝ) : SpatialGrid :=
  ⟨g.cell_size, g.entries ++ [(idx, ⌊x / g.cell_size⌋, ⌊y / g.cell_size⌋)]⟩

/-- Indices stored in one cell, in insertion order. -/
def SpatialGrid.cellList (g : SpatialGrid) (c : ℤ × ℤ) : List ℕ :=
  (g.entries.filter fun e => decide (e.2 = c)).map fun e => e.1

/-- Neighbor candidates, sim_core.py SpatialGrid.neighbors: all indices in
the three by three block of cells around the cell of the query point, with
no wrap-around of cell coordinates. -/
def SpatialGrid.neighbors (g : SpatialGrid) (x y : ℝ) : List ℕ :=
  let cx := ⌊x / g.cell_size⌋
  let cy := ⌊y / g.cell_size⌋
  ([-1, 0, 1] : List ℤ).flatMap fun dx =>
    ([-1, 0, 1] : List ℤ).flatMap fun dy =>
      g.cellList (cx + dx, cy + dy)

/-- Sequential insertion of enumerated positions, the rebuild loop of
Simulation.step: insert index idx for the head, idx plus one onward for the
tail. -/
def insert_all (g : SpatialGrid) (idx : ℕ) : List (ℝ × ℝ) → SpatialGrid
  | [] => g
  | p :: rest => insert_all (g.insert idx p.1 p.2) (idx + 1) rest

/-- Grid rebuild of Simulation.step: every particle is inserted at its
current position into a fresh grid of cell size 42. -/
def build_grid (positions : List (ℝ × ℝ)) : SpatialGrid :=
  insert_all ⟨42.0, []⟩ 0 positions

/-! ### Reachable simulation states

Simulation.step couples the chemistry transitions above with numeric force
accumulation, Gaussian noise and randomized construction. The structural
state (adjacency lists and ledger) is mutated only through the chemistry
entry points, so reachability is modelled as: an initial state with
arbitrary kinematics and no bonds (Simulation init places particles at
uniformly random positions and velocities with empty bond lists), kinematic
events that change positions and velocities arbitrarily but touch neither
types nor bonds (abstracting forces, damping, integration and thermostat),
the pair reaction pipeline exactly as the source runs it (only for pairs
with i below j and j not in the adjacency of i, the guards of the pair
loop), ledger-driven removal of an existing bond (the break phase), and
bond aging. Every structural mutation of the source is one of these
events. -/

structure SimState where
  particles : List Particle
  bonds : List Bond

inductive Reachable : SimState → Prop where
  | init (particles : List Particle)
      (hempty : ∀ p ∈ particles, p.bonds = []) :
      Reachable ⟨particles, []⟩
  | kin {s : SimState} (ps : List Particle) (hr : Reachable s)
      (hsame : List.Forall₂ (fun p q => p.type = q.type ∧ p.bonds = q.bonds)
        s.particles ps) :
      Reachable ⟨ps, s.bonds⟩
  | react {s : SimState} (hr : Reachable s) (i j : ℕ) (temperature : ℝ)
      (rand : List ℝ) (hij : i < j)
      (hnb : j ∉ (getP s.particles i).bonds) :
      Reachable ⟨(process_reactions i j s.particles s.bonds temperature rand).1,
                 (process_reactions i j s.particles s.bonds temperature rand).2.1⟩
  | breakBond {s : SimState} (hr : Reachable s) (b : Bond) (hb : b ∈ s.bonds) :
      Reachable ⟨(remove_bond_between b.i b.j s.bonds s.particles).2,
                 (remove_bond_between b.i b.j s.bonds s.particles).1⟩
  | ageBonds {s : SimState} (hr : Reachable s) :
      Reachable ⟨s.particles, s.bonds.map fun b => { b with age := b.age + 1 }⟩

/-- Number of ledger bonds on the unordered pair i j. -/
def pairBondCount (bonds : List Bond) (i j : ℕ) : ℕ :=
  (bonds.filter fun b => decide ((b.i = i ∧ b.j = j) ∨ (b.i = j ∧ b.j = i))).length

/-- Ledger and adjacency consistency as claimed: at most one ledger bond per
unordered pair, duplicate-free adjacency lists, and adjacency mirroring the
ledger exactly. -/
def ChemConsistent (s : SimState) : Prop :=
  (∀ i j, pairBondCount s.bonds i j ≤ 1) ∧
  (∀ p ∈ s.particles, p.bonds.Nodup) ∧
  (∀ i, i < s.particles.length → ∀ j,
    (j ∈ (getP s.particles i).bonds ↔ 1 ≤ pairBondCount s.bonds i j))

/-- Hard valence cap: every adjacency list has at most five entries, the
clamp of dynamic_max_bonds. -/
def BondCap (particles : List Particle) : Prop :=
  ∀ p ∈ particles, p.bonds.length ≤ 5

/-! ### Concrete scenario states -/

/-- Three bondless particles of type zero at rest, twenty apart: initial
state of the valence-bound scenario. -/
def c5init : SimState :=
  ⟨[⟨100, 100, 0, 0, 0, []⟩, ⟨120, 100, 0, 0, 0, []⟩, ⟨80, 100, 0, 0, 0, []⟩], []⟩

/-- Three bondless particles at rest for the duplicate-bond scenario:
particle 0 of type 3, particle 1 of type 2, particle 2 of type 0. -/
def c2init : SimState :=
  ⟨[⟨100, 100, 0, 0, 3, []⟩, ⟨120, 100, 0, 0, 2, []⟩, ⟨100, 80, 0, 0, 0, []⟩], []⟩

/-- Literal value of the particle list after the first c5 event. -/
def c5midP : List Particle :=
  [⟨100, 100, 0, 0, 0, [1]⟩, ⟨120, 100, 0, 0, 0, [0]⟩, ⟨80, 100, 0, 0, 0, []⟩]

/-- Literal value of the ledger after the first c5 event. -/
def c5midB : List Bond :=
  [⟨0, 1, BondType.covalent, 2, 18, (-1, 0), none, none, 0⟩]

/-- Literal value of the particle list after both c5 events: particle 0
holds two bonds. -/
def c5finP : List Particle :=
  [⟨100, 100, 0, 0, 0, [1, 2]⟩, ⟨120, 100, 0, 0, 0, [0]⟩, ⟨80, 100, 0, 0, 0, [0]⟩]

/-- Literal value of the ledger after both c5 events: two order-two covalent
bonds on particle 0, filling its shell completely. -/
def c5finB : List Bond :=
  [⟨0, 1, BondType.covalent, 2, 18, (-1, 0), none, none, 0⟩,
   ⟨0, 2, BondType.covalent, 2, 18, (1, 0), none, none, 0⟩]

/-- Literal value of the particle list after the first c2 event. -/
def c2midP : List Particle :=
  [⟨100, 100, 0, 0, 3, [2]⟩, ⟨120, 100, 0, 0, 2, []⟩, ⟨100, 80, 0, 0, 0, [0]⟩]

/-- Literal value of the ledger after the first c2 event: one ionic bond on
the pair (0,2). -/
def c2midB : List Bond :=
  [⟨0, 2, BondType.ionic, 1, 20, (0, 1), some 2, some 0, 0⟩]

/-- Literal value of the particle list after both c2 events: both adjacency
lists of the pair (0,1) hold a duplicate entry. -/
def c2finP : List Particle :=
  [⟨100, 100, 0, 0, 3, [1, 1]⟩, ⟨120, 100, 0, 0, 2, [0, 0]⟩, ⟨100, 80, 0, 0, 0, []⟩]

/-- Literal value of the ledger after both c2 events: two bonds on the same
unordered pair (0,1). -/
def c2finB : List Bond :=
  [⟨0, 1, BondType.covalent, 1, 18, (-1, 0), none, none, 0⟩,
   ⟨0, 1, BondType.covalent, 1, 18, (-1, 0), none, none, 0⟩]

/-- The c5 intermediate state bundled as a simulation state. -/
def c5mid : SimState := ⟨c5midP, c5midB⟩

/-- The c5 final state bundled as a simulation state. -/
def c5fin : SimState := ⟨c5finP, c5finB⟩

/-- The c2 intermediate state bundled as a simulation state. -/
def c2mid : SimState := ⟨c2midP, c2midB⟩

/-- The c2 final state bundled as a simulation state. -/
def c2fin : SimState := ⟨c2finP, c2finB⟩

/-! ### Spec-side definition for the classification claim -/

/-- Modelled from the spec: the tiered classification rule as the spec words
it, for comparison with classify_bond_type_temp. At temperature at most 0.9
covalent exactly when the electronegativity gap is below 1.6 and ionic
otherwise; at temperature at least 1.6 ionic exactly when the gap exceeds
0.9 and metallic otherwise; in between, metallic below gap 0.35, covalent
below gap 1.2, ionic otherwise. -/
def classify_spec (p_i p_j : Particle) (temperature : ℝ) : BondType :=
  let gap := |ELECTRONEG p_i.type - ELECTRONEG p_j.type|
  if temperature ≤ 0.9 then
    (if gap < 1.6 then BondType.covalent else BondType.ionic)
  else if temperature ≥ 1.6 then
    (if gap > 0.9 then BondType.ionic else BondType.metallic)
  else if gap < 0.35 then BondType.metallic
  else if gap < 1.2 then BondType.covalent
  else BondType.ionic

/-! ### Shared helper lemmas -/

theorem sqrt_four : Real.sqrt 4 = 2 := by
  rw [show (4 : ℝ) = 2 ^ 2 by norm_num, Real.sqrt_sq (by norm_num : (0 : ℝ) ≤ 2)]

theorem sqrt_four_hundred : Real.sqrt 400 = 20 := by
  rw [show (400 : ℝ) = 20 ^ 2 by norm_num, Real.sqrt_sq (by norm_num : (0 : ℝ) ≤ 20)]

theorem sqrt_sixteen_hundred : Real.sqrt 1600 = 40 := by
  rw [show (1600 : ℝ) = 40 ^ 2 by norm_num, Real.sqrt_sq (by norm_num : (0 : ℝ) ≤ 40)]

theorem ceil_fourteen_fifths : ⌈(14 : ℝ) / 5⌉ = 3 := by
  rw [Int.ceil_eq_iff]
  norm_num

theorem ceil_seven_fifths : ⌈(7 : ℝ) / 5⌉ = 2 := by
  rw [Int.ceil_eq_iff]
  norm_num

theorem ceil_seven_tenths : ⌈(7 : ℝ) / 10⌉ = 1 := by
  rw [Int.ceil_eq_iff]
  norm_num

theorem ceil_twentyone_tenths : ⌈(21 : ℝ) / 10⌉ = 3 := by
  rw [Int.ceil_eq_iff]
  norm_num

theorem bt_cov_ionic : (BondType.covalent = BondType.ionic) = False :=
  eq_false (by intro h; cases h)

theorem bt_cov_met : (BondType.covalent = BondType.metallic) = False :=
  eq_false (by intro h; cases h)

theorem bt_ionic_cov : (BondType.ionic = BondType.covalent) = False :=
  eq_false (by intro h; cases h)

theorem bt_ionic_met : (BondType.ionic = BondType.metallic) = False :=
  eq_false (by intro h; cases h)

theorem bt_met_cov : (BondType.metallic = BondType.covalent) = False :=
  eq_false (by intro h; cases h)

theorem bt_met_ionic : (BondType.metallic = BondType.ionic) = False :=
  eq_false (by intro h; cases h)

/-! ### Claim C9: classification is total, deterministic and tiered -/

/-- Claim C9: classify_bond_type_temp is a deterministic total function of
the two particle types and the temperature (it is a plain function of its
arguments, so determinism is inherent in the embedding), and for every
input it returns exactly the tiered rule the spec words: at temperature at
most 0.9 covalent exactly when the gap is below 1.6 else ionic, at
temperature at least 1.6 ionic exactly when the gap exceeds 0.9 else
metallic, and otherwise metallic below gap 0.35, covalent below 1.2, ionic
otherwise. -/
theorem c9_classify_matches_spec (p_i p_j : Particle) (temperature : ℝ) :
    classify_bond_type_temp p_i p_j temperature = classify_spec p_i p_j temperature := rfl

/-! ### Claim C6: the soft-start ramp factor -/

/-- Claim C6 counterexample: at bond age zero the claimed factor
min(age / N, 1) is zero while compute_bond_force uses (age + 1) / N, which
is one twelfth; so the claim fails at age zero. -/
theorem c6_soften_age_zero_cex :
    soften 0 ≠ min ((0 : ℝ) / (BOND_SOFTSTART_STEPS : ℝ)) 1 := by
  norm_num [soften, BOND_SOFTSTART_STEPS]

/-- Claim C6 amended: in compute_bond_force the soft-start ramp factor of a
bond of age at least zero equals min((age + 1) / N, 1) with N the constant
BOND_SOFTSTART_STEPS, so the factor is (age + 1) / N during the first N
steps and exactly 1 afterwards. -/
theorem c6_soften_ramp (age : ℕ) :
    soften age = min (((age : ℝ) + 1) / (BOND_SOFTSTART_STEPS : ℝ)) 1 := by
  unfold soften BOND_SOFTSTART_STEPS
  rcases lt_or_ge age 12 with h | h
  · rw [if_pos h, min_eq_left]
    have : (age : ℝ) ≤ 11 := by exact_mod_cast Nat.le_of_lt_succ h
    push_cast
    rw [div_le_one (by norm_num)]
    linarith
  · have h12 : (12 : ℝ) ≤ (age : ℝ) := by exact_mod_cast h
    rw [if_neg (by omega), min_eq_right (by
      rw [le_div_iff₀ (by norm_num : (0 : ℝ) < ((12 : ℕ) : ℝ))]
      push_cast
      linarith)]
    norm_num

/-! ### Claim C3: routing of already-bonded pairs in the step pair loop -/

/-- Claim C3 counterexample: for the pair i equal 0, j equal 1 with j in the
adjacency list of i, the claim asserts that the non-bonded force is skipped
while the pair is still routed into reaction evaluation; but the source
continue statement at sim_core.py line 96 skips both, so the routing flag is
false and the claimed conjunction fails. -/
theorem c3_bonded_pair_cex :
    ¬ ((step_pair_route 0 1 [1]).1 = false ∧ (step_pair_route 0 1 [1]).2 = true) := by
  decide

/-- Claim C3 amended: in the pair loop of step, every pair with i below j
and j already in the adjacency list of i is skipped entirely, with neither
the non-bonded force computation nor the reaction evaluation performed for
it. -/
theorem c3_bonded_pair_fully_skipped (i j : ℕ) (adj_i : List ℕ)
    (hij : i < j) (hmem : j ∈ adj_i) :
    step_pair_route i j adj_i = (false, false) := by
  unfold step_pair_route
  rw [if_neg (by omega), if_pos hmem]

/-- Claim C3 amended witness at the concrete pair 0, 2 with adjacency
list containing 2. -/
theorem c3_bonded_pair_fully_skipped_witness :
    step_pair_route 0 2 [2, 1] = (false, false) :=
  c3_bonded_pair_fully_skipped 0 2 [2, 1] (by decide) (by decide)

/-! ### Claim C7: wrap range and minimality -/

/-- Claim C7 counterexample: at the displacement dx equal 1201 the magnitude
of dx lies outside the half-width interval, yet wrap returns 401, a value
greater than the half width 400, so the claimed range containment fails (the
single correction step of the source only handles displacements of magnitude
below one and a half widths). -/
theorem c7_wrap_range_cex :
    WORLD_WIDTH * 0.5 < |(1201 : ℝ)| ∧ ¬ ((wrap 1201 0).1 ≤ WORLD_WIDTH * 0.5) := by
  constructor
  · rw [abs_of_nonneg (by norm_num)]
    norm_num [WORLD_WIDTH]
  · norm_num [wrap, WORLD_WIDTH]

/-- Minimality helper: a value of magnitude at most half the extent is the
shortest representative of its residue class modulo the extent 800. -/
theorem wrap_min_helper (w : ℝ) (hw : |w| ≤ 400) (m : ℤ) :
    |w| ≤ |w + (m : ℝ) * 800| := by
  rcases eq_or_ne m 0 with rfl | hm
  · simp
  · have h1 : (1 : ℝ) ≤ |(m : ℝ)| := by
      rw [← Int.cast_abs]
      exact_mod_cast Int.one_le_abs hm
    have h800 : (800 : ℝ) ≤ |(m : ℝ) * 800| := by
      rw [abs_mul, abs_of_nonneg (by norm_num : (0 : ℝ) ≤ 800)]
      nlinarith
    have htri : |(m : ℝ) * 800| ≤ |w + (m : ℝ) * 800| + |w| := by
      calc |(m : ℝ) * 800| = |(w + (m : ℝ) * 800) + (-w)| := by ring_nf
        _ ≤ |w + (m : ℝ) * 800| + |(-w)| := abs_add _ _
        _ = |w + (m : ℝ) * 800| + |w| := by rw [abs_neg]
    linarith

/-- Claim C7 amended: for displacement components that exceed half the world
extent in magnitude but stay below the full extent (the range every
in-world particle pair produces), wrap returns a component inside the
half-open interval from minus half the extent to half the extent, and that
component is a minimal-magnitude representative among all periodic images
dx plus k times the extent. For magnitudes of a full extent or more the
single correction step of the source does not reduce into range, as the
counterexample shows. -/
theorem c7_wrap_range_minimal (dx dy : ℝ) :
    (WORLD_WIDTH * 0.5 < |dx| → |dx| < WORLD_WIDTH →
      -(WORLD_WIDTH * 0.5) ≤ (wrap dx dy).1 ∧ (wrap dx dy).1 < WORLD_WIDTH * 0.5 ∧
      ∀ k : ℤ, |(wrap dx dy).1| ≤ |dx + (k : ℝ) * WORLD_WIDTH|) ∧
    (WORLD_HEIGHT * 0.5 < |dy| → |dy| < WORLD_HEIGHT →
      -(WORLD_HEIGHT * 0.5) ≤ (wrap dx dy).2 ∧ (wrap dx dy).2 < WORLD_HEIGHT * 0.5 ∧
      ∀ k : ℤ, |(wrap dx dy).2| ≤ |dy + (k : ℝ) * WORLD_HEIGHT|) := by
  constructor
  · intro hlo hhi
    rw [abs_lt] at hhi
    norm_num [WORLD_WIDTH] at hhi
    rcases abs_cases dx with ⟨heq, _⟩ | ⟨heq, _⟩
    · have hdx : dx > 400 := by rw [heq] at hlo; norm_num [WORLD_WIDTH] at hlo ⊢; linarith
      have hw : (wrap dx dy).1 = dx - 800 := by
        simp only [wrap, WORLD_WIDTH]
        rw [if_pos (by norm_num; linarith)]
      refine ⟨?_, ?_, ?_⟩
      · rw [hw]; norm_num [WORLD_WIDTH]; linarith [hhi.2]
      · rw [hw]; norm_num [WORLD_WIDTH]; linarith
      · intro k
        have habs : |(wrap dx dy).1| ≤ 400 := by
          rw [hw, abs_le]; constructor <;> norm_num [WORLD_WIDTH]
          · linarith [hhi.2]
          · linarith
        have himg : dx + (k : ℝ) * WORLD_WIDTH = (wrap dx dy).1 + ((k + 1 : ℤ) : ℝ) * 800 := by
          rw [hw]; push_cast; norm_num [WORLD_WIDTH]; ring
        rw [himg]
        exact wrap_min_helper _ habs (k + 1)
    · have hdx : dx < -400 := by
        rw [heq] at hlo; norm_num [WORLD_WIDTH] at hlo ⊢; linarith
      have hw : (wrap dx dy).1 = dx + 800 := by
        simp only [wrap, WORLD_WIDTH]
        rw [if_neg (by norm_num; linarith), if_pos (by norm_num; linarith)]
      refine ⟨?_, ?_, ?_⟩
      · rw [hw]; norm_num [WORLD_WIDTH]; linarith [hhi.1]
      · rw [hw]; norm_num [WORLD_WIDTH]; linarith
      · intro k
        have habs : |(wrap dx dy).1| ≤ 400 := by
          rw [hw, abs_le]; constructor <;> norm_num [WORLD_WIDTH]
          · linarith
          · linarith [hhi.1]
        have himg : dx + (k : ℝ) * WORLD_WIDTH = (wrap dx dy).1 + ((k - 1 : ℤ) : ℝ) * 800 := by
          rw [hw]; push_cast; norm_num [WORLD_WIDTH]; ring
        rw [himg]
        exact wrap_min_helper _ habs (k - 1)
  · intro hlo hhi
    rw [abs_lt] at hhi
    norm_num [WORLD_HEIGHT] at hhi
    rcases abs_cases dy with ⟨heq, _⟩ | ⟨heq, _⟩
    · have hdy : dy > 400 := by rw [heq] at hlo; norm_num [WORLD_HEIGHT] at hlo ⊢; linarith
      have hw : (wrap dx dy).2 = dy - 800 := by
        simp only [wrap, WORLD_HEIGHT]
        rw [if_pos (by norm_num; linarith)]
      refine ⟨?_, ?_, ?_⟩
      · rw [hw]; norm_num [WORLD_HEIGHT]; linarith [hhi.2]
      · rw [hw]; norm_num [WORLD_HEIGHT]; linarith
      · intro k
        have habs : |(wrap dx dy).2| ≤ 400 := by
          rw [hw, abs_le]; constructor <;> norm_num [WORLD_HEIGHT]
          · linarith [hhi.2]
          · linarith
        have himg : dy + (k : ℝ) * WORLD_HEIGHT = (wrap dx dy).2 + ((k + 1 : ℤ) : ℝ) * 800 := by
          rw [hw]; push_cast; norm_num [WORLD_HEIGHT]; ring
        rw [himg]
        exact wrap_min_helper _ habs (k + 1)
    · have hdy : dy < -400 := by
        rw [heq] at hlo; norm_num [WORLD_HEIGHT] at hlo ⊢; linarith
      have hw : (wrap dx dy).2 = dy + 800 := by
        simp only [wrap, WORLD_HEIGHT]
        rw [if_neg (by norm_num; linarith), if_pos (by norm_num; linarith)]
      refine ⟨?_, ?_, ?_⟩
      · rw [hw]; norm_num [WORLD_HEIGHT]; linarith [hhi.1]
      · rw [hw]; norm_num [WORLD_HEIGHT]; linarith
      · intro k
        have habs : |(wrap dx dy).2| ≤ 400 := by
          rw [hw, abs_le]; constructor <;> norm_num [WORLD_HEIGHT]
          · linarith
          · linarith [hhi.1]
        have himg : dy + (k : ℝ) * WORLD_HEIGHT = (wrap dx dy).2 + ((k - 1 : ℤ) : ℝ) * 800 := by
          rw [hw]; push_cast; norm_num [WORLD_HEIGHT]; ring
        rw [himg]
        exact wrap_min_helper _ habs (k - 1)

/-- Claim C7 amended witness at dx equal 500 and dy equal minus 500: both
components are out of half range, wrap reduces both into range. -/
theorem c7_wrap_range_minimal_witness :
    (WORLD_WIDTH * 0.5 < |(500 : ℝ)| ∧ |(500 : ℝ)| < WORLD_WIDTH) ∧
    -(WORLD_WIDTH * 0.5) ≤ (wrap 500 (-500)).1 ∧ (wrap 500 (-500)).1 < WORLD_WIDTH * 0.5 ∧
    ∀ k : ℤ, |(wrap 500 (-500)).1| ≤ |(500 : ℝ) + (k : ℝ) * WORLD_WIDTH| := by
  have h1 : WORLD_WIDTH * 0.5 < |(500 : ℝ)| := by
    rw [abs_of_nonneg (by norm_num)]; norm_num [WORLD_WIDTH]
  have h2 : |(500 : ℝ)| < WORLD_WIDTH := by
    rw [abs_of_nonneg (by norm_num)]; norm_num [WORLD_WIDTH]
  exact ⟨⟨h1, h2⟩, (c7_wrap_range_minimal 500 (-500)).1 h1 h2⟩

/-! ### Claim C1: integrate and apply_langevin never fail -/

/-- Claim C1, evaluated against the code: the claim asserts that integrate,
including apply_langevin, completes without raising for every non-empty
particle list, matching-length force list and positive temperature. The
source of apply_langevin reads the never-assigned global bonding_factor, so
the very first apply_langevin call raises NameError and integrate never
completes: on every such input the embedded integrate returns none. -/
theorem c1_integrate_always_fails (particles : List Particle)
    (forces : List (ℝ × ℝ)) (temperature : ℝ) (noise : List (ℝ × ℝ))
    (hne : particles ≠ []) (hlen : forces.length = particles.length)
    (hT : 0 < temperature) :
    integrate particles forces temperature noise = none := by
  rcases particles with _ | ⟨p, ps⟩
  · exact absurd rfl hne
  · rcases forces with _ | ⟨f, fs⟩
    · simp at hlen
    · rcases noise with _ | ⟨g, gs⟩ <;>
        simp [integrate, apply_langevin_all, apply_langevin, bonding_factor]

/-- Claim C1 witness: one resting particle, a zero force, temperature one
and an empty noise stream; integrate returns none. -/
theorem c1_integrate_always_fails_witness :
    integrate [⟨100, 100, 0, 0, 0, []⟩] [(0, 0)] 1 [] = none :=
  c1_integrate_always_fails _ _ _ _ (by simp) (by simp) (by norm_num)

/-! ### Claim C8: distance break checks -/

/-- Claim C8: for every bond, particle list and temperature, try_break_bond
returns true whenever the wrapped current distance exceeds
length times 1.9 times (1 + 0.2 (order - 1)); and a bonded pair at wrapped
distance length times 2.5 with order one (length at least the covalent
lower clamp 12.5 of the source) is flagged broken both by try_break_bond
and by the broken-by-distance result of compute_bond_force, for every
temperature. -/
theorem c8_break_distance_threshold (bond : Bond) (particles : List Particle)
    (temperature : ℝ) :
    (Real.sqrt (wrapped_r2 (getP particles bond.i) (getP particles bond.j)) >
       bond.length * BOND_BREAK_THRESHOLD * (1.0 + 0.2 * ((bond.order : ℝ) - 1)) →
     try_break_bond bond particles temperature = true) ∧
    (bond.order = 1 → 12.5 ≤ bond.length →
     Real.sqrt (wrapped_r2 (getP particles bond.i) (getP particles bond.j)) =
       bond.length * 2.5 →
     try_break_bond bond particles temperature = true ∧
     (compute_bond_force (getP particles bond.i) (getP particles bond.j) bond).2.2 = true) := by
  constructor
  · intro h
    unfold try_break_bond
    rw [if_pos h]
  · intro hord hlen heq
    have hgt : Real.sqrt (wrapped_r2 (getP particles bond.i) (getP particles bond.j)) >
        bond.length * BOND_BREAK_THRESHOLD * (1.0 + 0.2 * ((bond.order : ℝ) - 1)) := by
      rw [heq, hord]
      norm_num [BOND_BREAK_THRESHOLD]
      nlinarith
    refine ⟨?_, ?_⟩
    · unfold try_break_bond
      rw [if_pos hgt]
    · have hnn : (0 : ℝ) ≤ wrapped_r2 (getP particles bond.i) (getP particles bond.j) :=
        add_nonneg (mul_self_nonneg _) (mul_self_nonneg _)
      have hr2 : wrapped_r2 (getP particles bond.i) (getP particles bond.j) =
          (bond.length * 2.5) ^ 2 := by
        rw [← heq, Real.sq_sqrt hnn]
      have hne9 : ¬ (wrapped_r2 (getP particles bond.i) (getP particles bond.j) < 1e-9) := by
        rw [hr2]
        nlinarith
      have hcond : Real.sqrt (wrapped_r2 (getP particles bond.i) (getP particles bond.j)) >
          bond.length * BOND_BREAK_THRESHOLD := by
        rw [heq]
        norm_num [BOND_BREAK_THRESHOLD]
        nlinarith
      simp only [compute_bond_force, if_neg hne9, if_pos hcond]

/-- Claim C8 witness: a covalent order-one bond of equilibrium length 16
between particles forty apart on one axis; forty equals 16 times 2.5 and
both break checks flag the bond at temperature 3.7. -/
theorem c8_break_distance_threshold_witness :
    try_break_bond ⟨0, 1, BondType.covalent, 1, 16, (0, 0), none, none, 0⟩
      [⟨100, 100, 0, 0, 0, [1]⟩, ⟨140, 100, 0, 0, 0, [0]⟩] 3.7 = true ∧
    (compute_bond_force
      (getP [⟨100, 100, 0, 0, 0, [1]⟩, ⟨140, 100, 0, 0, 0, [0]⟩] 0)
      (getP [⟨100, 100, 0, 0, 0, [1]⟩, ⟨140, 100, 0, 0, 0, [0]⟩] 1)
      ⟨0, 1, BondType.covalent, 1, 16, (0, 0), none, none, 0⟩).2.2 = true := by
  have heq : Real.sqrt (wrapped_r2
      (getP [⟨100, 100, 0, 0, 0, [1]⟩, (⟨140, 100, 0, 0, 0, [0]⟩ : Particle)] (0 : ℕ))
      (getP [⟨100, 100, 0, 0, 0, [1]⟩, ⟨140, 100, 0, 0, 0, [0]⟩] (1 : ℕ))) = (16 : ℝ) * 2.5 := by
    norm_num [wrapped_r2, getP, wrap, WORLD_WIDTH, WORLD_HEIGHT, sqrt_sixteen_hundred]
  exact (c8_break_distance_threshold
    ⟨0, 1, BondType.covalent, 1, 16, (0, 0), none, none, 0⟩
    [⟨100, 100, 0, 0, 0, [1]⟩, ⟨140, 100, 0, 0, 0, [0]⟩] 3.7).2 rfl (by norm_num) heq

/-! ### Claim C10: the fail-fast guards of try_form_bond -/

/-- Claim C10: try_form_bond returns false whenever an endpoint is at or
over its dynamic max-bond count, or both shell deficits are zero, or the
wrapped distance exceeds the formation radius 26; and whenever it returns
false, the ledger and the adjacency lists of all particles are unchanged. -/
theorem c10_form_bond_guards (i j : ℕ) (particles : List Particle)
    (bonds : List Bond) (temperature : ℝ) (rand : List ℝ) :
    ((((getP particles i).bonds.length : ℤ) ≥ dynamic_max_bonds i particles bonds ∨
      ((getP particles j).bonds.length : ℤ) ≥ dynamic_max_bonds j particles bonds ∨
      (shell_deficit i particles bonds = 0 ∧ shell_deficit j particles bonds = 0) ∨
      Real.sqrt (wrapped_r2 (getP particles i) (getP particles j)) > BOND_FORM_RADIUS) →
      (try_form_bond i j particles bonds temperature rand).1 = false) ∧
    ((try_form_bond i j particles bonds temperature rand).1 = false →
      (try_form_bond i j particles bonds temperature rand).2.2.1 = bonds ∧
      ((try_form_bond i j particles bonds temperature rand).2.1).map Particle.bonds =
        particles.map Particle.bonds) := by
  constructor
  · intro hguard
    unfold try_form_bond
    by_cases h1 : ((getP particles i).bonds.length : ℤ) ≥ dynamic_max_bonds i particles bonds
    · rw [if_pos h1]
    · rw [if_neg h1]
      by_cases h2 : ((getP particles j).bonds.length : ℤ) ≥ dynamic_max_bonds j particles bonds
      · rw [if_pos h2]
      · rw [if_neg h2]
        by_cases h3 : shell_deficit i particles bonds ≤ 0 ∧ shell_deficit j particles bonds ≤ 0
        · rw [if_pos h3]
        · rw [if_neg h3]
          by_cases h4 : wrapped_r2 (getP particles i) (getP particles j) >
              BOND_FORM_RADIUS * BOND_FORM_RADIUS
          · rw [if_pos h4]
          · exfalso
            rcases hguard with h | h | h | h
            · exact h1 h
            · exact h2 h
            · exact h3 ⟨le_of_eq h.1, le_of_eq h.2⟩
            · have h26 := (Real.lt_sqrt (by norm_num [BOND_FORM_RADIUS])).mp h
              exact h4 (by nlinarith [h26])
  · intro hfalse
    unfold try_form_bond at hfalse ⊢
    by_cases h1 : ((getP particles i).bonds.length : ℤ) ≥ dynamic_max_bonds i particles bonds
    · rw [if_pos h1]
      exact ⟨rfl, rfl⟩
    · rw [if_neg h1] at hfalse ⊢
      by_cases h2 : ((getP particles j).bonds.length : ℤ) ≥ dynamic_max_bonds j particles bonds
      · rw [if_pos h2]
        exact ⟨rfl, rfl⟩
      · rw [if_neg h2] at hfalse ⊢
        by_cases h3 : shell_deficit i particles bonds ≤ 0 ∧ shell_deficit j particles bonds ≤ 0
        · rw [if_pos h3]
          exact ⟨rfl, rfl⟩
        · rw [if_neg h3] at hfalse ⊢
          by_cases h4 : wrapped_r2 (getP particles i) (getP particles j) >
              BOND_FORM_RADIUS * BOND_FORM_RADIUS
          · rw [if_pos h4]
            exact ⟨rfl, rfl⟩
          · rw [if_neg h4] at hfalse ⊢
            by_cases h5 : rel_v2 (getP particles i) (getP particles j) >
                REL_V2_BASE * temperature +
                  REL_V2_STABIL_BONUS *
                    (shell_deficit i particles bonds + shell_deficit j particles bonds) / 3.5
            · rw [if_pos h5]
              exact ⟨rfl, rfl⟩
            · rw [if_neg h5] at hfalse ⊢
              by_cases h6 : (randDraw rand).1 >
                  min 0.97 (form_probability i j particles bonds temperature)
              · rw [if_pos h6]
                exact ⟨rfl, rfl⟩
              · rw [if_neg h6] at hfalse
                exact Bool.noConfusion hfalse

/-- Claim C10 witness: two inert type-4 particles have full shells, both
deficits are zero, formation is refused and the state is unchanged. -/
theorem c10_form_bond_guards_witness :
    shell_deficit 0 [⟨100, 100, 0, 0, 4, []⟩, ⟨110, 100, 0, 0, 4, []⟩] [] = 0 ∧
    (try_form_bond 0 1 [⟨100, 100, 0, 0, 4, []⟩, ⟨110, 100, 0, 0, 4, []⟩] [] 1 [0.5]).1 =
      false := by
  have hzero : shell_deficit 0 [⟨100, 100, 0, 0, 4, []⟩, ⟨110, 100, 0, 0, 4, []⟩] [] = 0 := by
    norm_num [shell_deficit, shell_fill, getP, VALENCE_ELECTRONS, TARGET_SHELL]
  have hzero1 : shell_deficit 1 [⟨100, 100, 0, 0, 4, []⟩, ⟨110, 100, 0, 0, 4, []⟩] [] = 0 := by
    norm_num [shell_deficit, shell_fill, getP, VALENCE_ELECTRONS, TARGET_SHELL]
  exact ⟨hzero,
    (c10_form_bond_guards 0 1 [⟨100, 100, 0, 0, 4, []⟩, ⟨110, 100, 0, 0, 4, []⟩] [] 1 [0.5]).1
      (Or.inr (Or.inr (Or.inl ⟨hzero, hzero1⟩)))⟩

/-! ### Hard valence cap preservation lemmas -/

theorem bondCap_getP {particles : List Particle} (h : BondCap particles) (i : ℕ) :
    (getP particles i).bonds.length ≤ 5 := by
  unfold getP
  rcases lt_or_ge i particles.length with hi | hi
  · refine h _ ?_
    rw [List.getD_eq_getElem?_getD, List.getElem?_eq_getElem hi]
    exact List.getElem_mem hi
  · rw [List.getD_eq_getElem?_getD, List.getElem?_eq_none hi]
    show ([] : List ℕ).length ≤ 5
    norm_num

theorem bondCap_set {particles : List Particle} {q : Particle} {n : ℕ}
    (h : BondCap particles) (hq : q.bonds.length ≤ 5) : BondCap (particles.set n q) := by
  intro p hp
  rcases List.mem_or_eq_of_mem_set hp with hmem | rfl
  · exact h p hmem
  · exact hq

theorem dynamic_max_bonds_le_five (i : ℕ) (particles : List Particle) (bonds : List Bond) :
    dynamic_max_bonds i particles bonds ≤ 5 := by
  unfold dynamic_max_bonds
  exact max_le (by norm_num) (min_le_left _ _)

theorem bondCap_prebond_damp {i j : ℕ} {particles : List Particle} {bonds : List Bond}
    {temperature : ℝ} (h : BondCap particles) :
    BondCap (prebond_damp i j particles bonds temperature) := by
  unfold prebond_damp
  split_ifs with h1 h2
  · exact h
  · exact h
  · exact bondCap_set (bondCap_set h (bondCap_getP h i)) (bondCap_getP h j)

theorem getP_set_ne {particles : List Particle} {q : Particle} {i j : ℕ} (hij : i ≠ j) :
    getP (particles.set i q) j = getP particles j := by
  unfold getP
  rw [List.getD_eq_getElem?_getD, List.getD_eq_getElem?_getD,
    List.getElem?_set_ne hij]

theorem bondCap_try_form {i j : ℕ} {particles : List Particle} {bonds : List Bond}
    {temperature : ℝ} {rand : List ℝ} (hij : i ≠ j) (h : BondCap particles) :
    BondCap (try_form_bond i j particles bonds temperature rand).2.1 := by
  unfold try_form_bond
  by_cases h1 : ((getP particles i).bonds.length : ℤ) ≥ dynamic_max_bonds i particles bonds
  · rw [if_pos h1]; exact h
  · rw [if_neg h1]
    by_cases h2 : ((getP particles j).bonds.length : ℤ) ≥ dynamic_max_bonds j particles bonds
    · rw [if_pos h2]; exact h
    · rw [if_neg h2]
      by_cases h3 : shell_deficit i particles bonds ≤ 0 ∧ shell_deficit j particles bonds ≤ 0
      · rw [if_pos h3]; exact h
      · rw [if_neg h3]
        by_cases h4 : wrapped_r2 (getP particles i) (getP particles j) >
            BOND_FORM_RADIUS * BOND_FORM_RADIUS
        · rw [if_pos h4]; exact h
        · rw [if_neg h4]
          by_cases h5 : rel_v2 (getP particles i) (getP particles j) >
              REL_V2_BASE * temperature +
                REL_V2_STABIL_BONUS *
                  (shell_deficit i particles bonds + shell_deficit j particles bonds) / 3.5
          · rw [if_pos h5]; exact h
          · rw [if_neg h5]
            by_cases h6 : (randDraw rand).1 >
                min 0.97 (form_probability i j particles bonds temperature)
            · rw [if_pos h6]; exact h
            · rw [if_neg h6]
              have hcap_i : ((getP particles i).bonds ++ [j]).length ≤ 5 := by
                have hlt : ((getP particles i).bonds.length : ℤ) <
                    dynamic_max_bonds i particles bonds := lt_of_not_ge h1
                have h5i := dynamic_max_bonds_le_five i particles bonds
                simp only [List.length_append, List.length_singleton]
                omega
              have hcap_j : ((getP particles j).bonds ++ [i]).length ≤ 5 := by
                have hlt : ((getP particles j).bonds.length : ℤ) <
                    dynamic_max_bonds j particles bonds := lt_of_not_ge h2
                have h5j := dynamic_max_bonds_le_five j particles bonds
                simp only [List.length_append, List.length_singleton]
                omega
              refine bondCap_set (bondCap_set h hcap_i) ?_
              rw [getP_set_ne hij]
              exact hcap_j

theorem bondCap_remove {i j : ℕ} {bonds : List Bond} {particles : List Particle}
    (h : BondCap particles) :
    BondCap (remove_bond_between i j bonds particles).2 := by
  simp only [remove_bond_between]
  split_ifs with h1 h2 h3
  all_goals
    first
      | exact h
      | (refine bondCap_set h ?_
         exact le_trans (List.length_erase_le _ _) (bondCap_getP h _))
      | (refine bondCap_set (bondCap_set h
            (le_trans (List.length_erase_le _ _) (bondCap_getP h _))) ?_
         exact le_trans (List.length_erase_le _ _)
           (bondCap_getP (bondCap_set h
             (le_trans (List.length_erase_le _ _) (bondCap_getP h _))) _))

theorem bondCap_addition {i j : ℕ} {bonds : List Bond} {particles : List Particle}
    {temperature : ℝ} {rand : List ℝ} (hij : i ≠ j) (h : BondCap particles) :
    BondCap (reaction_addition i j bonds particles temperature rand).2.1 := by
  simp only [reaction_addition]
  split_ifs with h1
  · exact bondCap_try_form hij h
  · exact h

set_option maxHeartbeats 800000 in
theorem bondCap_substitution {i j : ℕ} {bonds : List Bond} {particles : List Particle}
    {temperature : ℝ} {rand : List ℝ} (hij : i ≠ j) (h : BondCap particles) :
    BondCap (reaction_substitution i j bonds particles temperature rand).2.1 := by
  simp only [reaction_substitution]
  split_ifs <;> (try split) <;> (try dsimp only) <;>
    first
      | exact h
      | exact bondCap_try_form hij (bondCap_remove h)

theorem bondCap_dissociation {i : ℕ} {bonds : List Bond} {particles : List Particle}
    {temperature : ℝ} {rand : List ℝ} (h : BondCap particles) :
    BondCap (reaction_dissociation i bonds particles temperature rand).2.1 := by
  simp only [reaction_dissociation]
  split_ifs <;> (try dsimp only) <;>
    first
      | exact h
      | exact bondCap_remove h

theorem bondCap_process {i j : ℕ} {particles : List Particle} {bonds : List Bond}
    {temperature : ℝ} {rand : List ℝ} (hij : i ≠ j) (h : BondCap particles) :
    BondCap (process_reactions i j particles bonds temperature rand).1 := by
  simp only [process_reactions]
  split_ifs with h1 h2
  · exact h
  · exact bondCap_try_form hij (bondCap_prebond_damp h)
  · exact bondCap_dissociation
      (bondCap_substitution hij
        (bondCap_addition hij
          (bondCap_try_form hij (bondCap_prebond_damp h))))

theorem bondCap_of_forall₂ {l1 l2 : List Particle}
    (hf : List.Forall₂ (fun p q => p.type = q.type ∧ p.bonds = q.bonds) l1 l2)
    (h : BondCap l1) : BondCap l2 := by
  induction hf with
  | nil => intro p hp; cases hp
  | cons hpq _ ih =>
    intro p hp
    rcases List.mem_cons.mp hp with rfl | hp
    · rw [← hpq.2]
      exact h _ (List.mem_cons_self _ _)
    · exact ih (fun q hq => h q (List.mem_cons_of_mem _ hq)) p hp

/-! ### Claim C5: the valence bound -/

/-- Evaluation of the first c5 event: on the three resting type-zero
particles, the pair pipeline on (0, 1) at temperature 0.5 with draws 0.5,
0.2, 0.9 forms one covalent bond of order two. -/
theorem c5_ev1 :
    process_reactions 0 1 c5init.particles c5init.bonds 0.5 [0.5, 0.2, 0.9] =
      (c5midP, c5midB, []) := by
  norm_num [process_reactions, prebond_damp, damp_capture, try_form_bond, c5init, getP,
    c5midP, c5midB,
    wrapped_r2, rel_v2, form_probability, bond_order_roll, fresh_bond_length,
    dynamic_max_bonds, shell_deficit, shell_fill,
    TYPE_PREF, ELECTRONEG, VALENCE_ELECTRONS, TARGET_SHELL, wrap, WORLD_WIDTH, WORLD_HEIGHT,
    BOND_FORM_RADIUS, CAPTURE_RADIUS, REL_V2_BASE, REL_V2_STABIL_BONUS, P_BOND_BASE,
    P_BOND_DEFICIT_GAIN,
    P_BOND_LOW_T_BOOST, P_BOND_HIGH_T_BOOST, T_GEOM_MAX, T_IONIC_MIN, randDraw,
    classify_bond_type_temp, dipole_from_EN, max_def, min_def, sqrt_four_hundred,
    abs_of_nonneg, abs_of_nonpos,
    ceil_fourteen_fifths, ceil_seven_fifths, ceil_seven_tenths, ceil_twentyone_tenths,
    bt_cov_ionic, bt_cov_met, bt_ionic_cov, bt_ionic_met, bt_met_cov, bt_met_ionic]

/-- Evaluation of the second c5 event: the pair pipeline on (0, 2) with the
same draws forms a second order-two covalent bond on particle 0, filling
its shell; afterwards its dynamic cap is back at the type base of one while
it carries two bonds. -/
theorem c5_ev2 :
    process_reactions 0 2 c5mid.particles c5mid.bonds 0.5 [0.5, 0.2, 0.9] =
      (c5finP, c5finB, []) := by
  norm_num [process_reactions, prebond_damp, damp_capture, try_form_bond, getP,
    c5mid, c5midP, c5midB, c5finP, c5finB,
    wrapped_r2, rel_v2, form_probability, bond_order_roll, fresh_bond_length,
    dynamic_max_bonds, shell_deficit, shell_fill,
    TYPE_PREF, ELECTRONEG, VALENCE_ELECTRONS, TARGET_SHELL, wrap, WORLD_WIDTH, WORLD_HEIGHT,
    BOND_FORM_RADIUS, CAPTURE_RADIUS, REL_V2_BASE, REL_V2_STABIL_BONUS, P_BOND_BASE,
    P_BOND_DEFICIT_GAIN,
    P_BOND_LOW_T_BOOST, P_BOND_HIGH_T_BOOST, T_GEOM_MAX, T_IONIC_MIN, randDraw,
    classify_bond_type_temp, dipole_from_EN, max_def, min_def, sqrt_four_hundred,
    abs_of_nonneg, abs_of_nonpos,
    ceil_fourteen_fifths, ceil_seven_fifths, ceil_seven_tenths, ceil_twentyone_tenths,
    bt_cov_ionic, bt_cov_met, bt_ionic_cov, bt_ionic_met, bt_met_cov, bt_met_ionic]

/-- Claim C5 counterexample: the valence bound as claimed fails on a
reachable state. Starting from three resting type-zero particles with no
bonds, two successful formations of order-two covalent bonds (each passing
the pre-state cap check) give particle 0 two bonds while its shell is full,
so dynamic_max_bonds evaluated at that state is one and the claimed
pointwise bound two at most one is false. -/
theorem c5_valence_bound_cex :
    ¬ (∀ s : SimState, Reachable s → ∀ i : ℕ,
        ((getP s.particles i).bonds.length : ℤ) ≤ dynamic_max_bonds i s.particles s.bonds) := by
  intro hcl
  have h0 : Reachable c5init :=
    Reachable.init c5init.particles (by
      intro p hp
      simp [c5init] at hp
      rcases hp with rfl | rfl | rfl <;> rfl)
  have h1 : Reachable c5mid := by
    have hr := Reachable.react h0 0 1 0.5 [0.5, 0.2, 0.9] (by norm_num)
      (by simp [c5init, getP])
    rw [c5_ev1] at hr
    exact hr
  have h2 : Reachable c5fin := by
    have hr := Reachable.react h1 0 2 0.5 [0.5, 0.2, 0.9] (by norm_num)
      (by simp [c5mid, c5midP, getP])
    rw [c5_ev2] at hr
    exact hr
  have hv := hcl c5fin h2 0
  norm_num [c5fin, c5finP, c5finB, getP, dynamic_max_bonds, shell_deficit, shell_fill,
    TYPE_PREF, VALENCE_ELECTRONS, TARGET_SHELL, max_def, min_def,
    bt_cov_ionic, bt_cov_met, bt_ionic_cov, bt_ionic_met, bt_met_cov, bt_met_ionic] at hv

/-- Claim C5 amended: the dynamic valence cap is enforced against the state
at formation time, not re-established afterwards: whenever try_form_bond
succeeds, each endpoint had strictly fewer bonds than its dynamic cap in
the pre-call state; and since the cap never exceeds five, every reachable
state keeps every adjacency list at five entries or fewer. The post-state
count may exceed dynamic_max_bonds re-evaluated at the new state, as the
counterexample shows. -/
theorem c5_valence_bound_amended :
    (∀ (i j : ℕ) (particles : List Particle) (bonds : List Bond) (temperature : ℝ)
       (rand : List ℝ),
       (try_form_bond i j particles bonds temperature rand).1 = true →
       ((getP particles i).bonds.length : ℤ) < dynamic_max_bonds i particles bonds ∧
       ((getP particles j).bonds.length : ℤ) < dynamic_max_bonds j particles bonds) ∧
    (∀ s : SimState, Reachable s → BondCap s.particles) := by
  constructor
  · intro i j particles bonds temperature rand htrue
    unfold try_form_bond at htrue
    by_cases h1 : ((getP particles i).bonds.length : ℤ) ≥ dynamic_max_bonds i particles bonds
    · rw [if_pos h1] at htrue
      exact Bool.noConfusion htrue
    · rw [if_neg h1] at htrue
      by_cases h2 : ((getP particles j).bonds.length : ℤ) ≥ dynamic_max_bonds j particles bonds
      · rw [if_pos h2] at htrue
        exact Bool.noConfusion htrue
      · exact ⟨lt_of_not_ge h1, lt_of_not_ge h2⟩
  · intro s hr
    induction hr with
    | init particles hempty =>
      intro p hp
      rw [hempty p hp]
      norm_num
    | kin ps hr hsame ih => exact bondCap_of_forall₂ hsame ih
    | react hr i j temperature rand hij hnb ih => exact bondCap_process (Nat.ne_of_lt hij) ih
    | breakBond hr b hb ih =>
      dsimp only
      exact bondCap_remove ih
    | ageBonds hr ih => exact ih

/-- Claim C5 amended witness: the bound holds on the concrete reachable
state c5fin of the counterexample scenario, where every particle carries at
most two bonds. -/
theorem c5_valence_bound_amended_witness : BondCap c5finP := by
  have h0 : Reachable c5init :=
    Reachable.init c5init.particles (by
      intro p hp
      simp [c5init] at hp
      rcases hp with rfl | rfl | rfl <;> rfl)
  have h1 : Reachable c5mid := by
    have hr := Reachable.react h0 0 1 0.5 [0.5, 0.2, 0.9] (by norm_num)
      (by simp [c5init, getP])
    rw [c5_ev1] at hr
    exact hr
  have h2 : Reachable c5fin := by
    have hr := Reachable.react h1 0 2 0.5 [0.5, 0.2, 0.9] (by norm_num)
      (by simp [c5mid, c5midP, getP])
    rw [c5_ev2] at hr
    exact hr
  exact c5_valence_bound_amended.2 c5fin h2

/-! ### Claim C2: ledger and adjacency consistency -/

/-- Evaluation of the first c2 event: the pair pipeline on (0, 2) at
temperature 1.2 with draw 0.5 forms one ionic bond with acceptor 0 and
donor 2. -/
theorem c2_ev1 :
    process_reactions 0 2 c2init.particles c2init.bonds 1.2 [0.5] =
      (c2midP, c2midB, []) := by
  norm_num [process_reactions, prebond_damp, damp_capture, try_form_bond, getP, c2init,
    c2midP, c2midB,
    wrapped_r2, rel_v2, form_probability, bond_order_roll, fresh_bond_length,
    dynamic_max_bonds, shell_deficit, shell_fill,
    TYPE_PREF, ELECTRONEG, VALENCE_ELECTRONS, TARGET_SHELL, wrap, WORLD_WIDTH, WORLD_HEIGHT,
    BOND_FORM_RADIUS, CAPTURE_RADIUS, REL_V2_BASE, REL_V2_STABIL_BONUS, P_BOND_BASE,
    P_BOND_DEFICIT_GAIN,
    P_BOND_LOW_T_BOOST, P_BOND_HIGH_T_BOOST, T_GEOM_MAX, T_IONIC_MIN, randDraw,
    classify_bond_type_temp, dipole_from_EN, max_def, min_def, sqrt_four_hundred,
    abs_of_nonneg, abs_of_nonpos,
    ceil_fourteen_fifths, ceil_seven_fifths, ceil_seven_tenths, ceil_twentyone_tenths,
    bt_cov_ionic, bt_cov_met, bt_ionic_cov, bt_ionic_met, bt_met_cov, bt_met_ionic]

/-- Evaluation of the second c2 event, the duplicate-bond run: the direct
formation attempt on (0, 1) fails on draw 0.9; reaction_addition forms the
(0, 1) covalent bond and its result is discarded; reaction_substitution
then removes the weaker (0, 2) bond and calls try_form_bond on (0, 1)
again, which succeeds on draw 0.5 and appends a second (0, 1) bond,
duplicating both adjacency entries; dissociation declines on draw 0.9. -/
theorem c2_ev2 :
    process_reactions 0 1 c2mid.particles c2mid.bonds 1.2 [0.9, 0.5, 0.5, 0.9] =
      (c2finP, c2finB, []) := by
  norm_num [process_reactions, prebond_damp, damp_capture, try_form_bond, getP,
    c2mid, c2midP, c2midB, c2finP, c2finB,
    reaction_addition, reaction_substitution, reaction_dissociation, remove_bond_between,
    Xor', List.eraseP_cons, List.eraseP_nil, List.erase_cons,
    wrapped_r2, rel_v2, form_probability, bond_order_roll, fresh_bond_length,
    dynamic_max_bonds, shell_deficit, shell_fill,
    TYPE_PREF, ELECTRONEG, VALENCE_ELECTRONS, TARGET_SHELL, wrap, WORLD_WIDTH, WORLD_HEIGHT,
    BOND_FORM_RADIUS, CAPTURE_RADIUS, REL_V2_BASE, REL_V2_STABIL_BONUS, P_BOND_BASE,
    P_BOND_DEFICIT_GAIN, P_DISSOC_BASE, P_DISSOC_HIGH_T,
    P_BOND_LOW_T_BOOST, P_BOND_HIGH_T_BOOST, T_GEOM_MAX, T_IONIC_MIN, randDraw,
    classify_bond_type_temp, dipole_from_EN, max_def, min_def, sqrt_four_hundred,
    abs_of_nonneg, abs_of_nonpos,
    ceil_fourteen_fifths, ceil_seven_fifths, ceil_seven_tenths, ceil_twentyone_tenths,
    bt_cov_ionic, bt_cov_met, bt_ionic_cov, bt_ionic_met, bt_met_cov, bt_met_ionic]

/-- Claim C2, evaluated against the code: ledger and adjacency consistency
is not an invariant of the reachable states. The state c2fin is reachable
(three particles, one prior ionic bond, then one pair-pipeline run in which
reaction_addition forms the pair (0, 1) with its boolean result discarded
and reaction_substitution re-forms the same pair), yet its ledger carries
two bonds for the unordered pair (0, 1), which the consistency predicate
forbids. -/
theorem c2_duplicate_pair_bond : Reachable c2fin ∧ ¬ ChemConsistent c2fin := by
  constructor
  · have h0 : Reachable c2init :=
      Reachable.init c2init.particles (by
        intro p hp
        simp [c2init] at hp
        rcases hp with rfl | rfl | rfl <;> rfl)
    have h1 : Reachable c2mid := by
      have hr := Reachable.react h0 0 2 1.2 [0.5] (by norm_num)
        (by simp [c2init, getP])
      rw [c2_ev1] at hr
      exact hr
    have hr := Reachable.react h1 0 1 1.2 [0.9, 0.5, 0.5, 0.9] (by norm_num)
      (by simp [c2mid, c2midP, getP])
    rw [c2_ev2] at hr
    exact hr
  · rintro ⟨hpair, -, -⟩
    have hv := hpair 0 1
    norm_num [pairBondCount, c2fin, c2finB, List.filter] at hv

/-! ### Claim C4: spatial grid neighbor completeness -/

theorem insert_all_cell_size :
    ∀ (ps : List (ℝ × ℝ)) (g : SpatialGrid) (b : ℕ),
      (insert_all g b ps).cell_size = g.cell_size := by
  intro ps
  induction ps with
  | nil => intro g b; rfl
  | cons p rest ih => intro g b; exact ih _ _

theorem mem_entries_insert_all {e : ℕ × ℤ × ℤ} :
    ∀ (ps : List (ℝ × ℝ)) (g : SpatialGrid) (b : ℕ),
      e ∈ g.entries → e ∈ (insert_all g b ps).entries := by
  intro ps
  induction ps with
  | nil => intro g b h; exact h
  | cons p rest ih =>
    intro g b h
    exact ih _ _ (List.mem_append_left _ h)

theorem mem_insert_all :
    ∀ (ps : List (ℝ × ℝ)) (g : SpatialGrid) (b q : ℕ) (x y : ℝ),
      ps[q]? = some (x, y) →
      (b + q, ⌊x / g.cell_size⌋, ⌊y / g.cell_size⌋) ∈ (insert_all g b ps).entries := by
  intro ps
  induction ps with
  | nil =>
    intro g b q x y hq
    simp at hq
  | cons p rest ih =>
    intro g b q x y hq
    cases q with
    | zero =>
      simp at hq
      refine mem_entries_insert_all rest (g.insert b p.1 p.2) (b + 1) ?_
      simp [SpatialGrid.insert, hq]
    | succ m =>
      simp only [List.getElem?_cons_succ] at hq
      have h := ih (g.insert b p.1 p.2) (b + 1) m x y hq
      have hb : b + 1 + m = b + (m + 1) := by omega
      rw [hb] at h
      exact h

theorem mem_cellList_of_mem_entries {g : SpatialGrid} {q : ℕ} {c : ℤ × ℤ}
    (h : (q, c) ∈ g.entries) : q ∈ g.cellList c := by
  unfold SpatialGrid.cellList
  exact List.mem_map.mpr ⟨(q, c), List.mem_filter.mpr ⟨h, by simp⟩, rfl⟩

theorem floor_within_one {a b : ℝ} (h : |a - b| ≤ 1) :
    ⌊b⌋ - 1 ≤ ⌊a⌋ ∧ ⌊a⌋ ≤ ⌊b⌋ + 1 := by
  rw [abs_le] at h
  constructor
  · have h2 : ⌊b - (1 : ℤ)⌋ ≤ ⌊a⌋ := Int.floor_mono (by push_cast; linarith [h.1])
    rwa [Int.floor_sub_int] at h2
  · have h2 : ⌊a⌋ ≤ ⌊b + (1 : ℤ)⌋ := Int.floor_mono (by push_cast; linarith [h.2])
    rwa [Int.floor_add_int] at h2

theorem floor_zero_div42 : ⌊(0 : ℝ) / 42.0⌋ = 0 := by
  rw [Int.floor_eq_iff]
  norm_num

theorem floor_one_div42 : ⌊(1 : ℝ) / 42.0⌋ = 0 := by
  rw [Int.floor_eq_iff]
  norm_num

theorem floor_inv42 : ⌊(42.0 : ℝ)⁻¹⌋ = 0 := by
  rw [Int.floor_eq_iff]
  norm_num

theorem floor_sevenninetynine_div42 : ⌊(799 : ℝ) / 42.0⌋ = 19 := by
  rw [Int.floor_eq_iff]
  norm_num

/-- Claim C4 counterexample: particles at x equal 1 and x equal 799 on the
same row are two apart in wrapped distance, far below the cutoff 42, yet
the grid buckets them into cells 0 and 19 and neighbors scans only cells
minus one to one, so the second particle is missing from the candidates at
the position of the first: the grid does not wrap cell coordinates at the
periodic boundary. -/
theorem c4_boundary_pair_missed :
    Real.sqrt (wrapped_r2 ⟨1, 0, 0, 0, 0, []⟩ ⟨799, 0, 0, 0, 0, []⟩) < 42 ∧
    1 ∉ (build_grid [(1, 0), (799, 0)]).neighbors 1 0 := by
  constructor
  · norm_num [wrapped_r2, wrap, WORLD_WIDTH, WORLD_HEIGHT, sqrt_four]
  · intro hmem
    simp [build_grid, insert_all, SpatialGrid.insert, SpatialGrid.neighbors,
      SpatialGrid.cellList, floor_zero_div42, floor_one_div42, floor_inv42,
      floor_sevenninetynine_div42] at hmem

/-- Claim C4 amended: the neighbor query is complete only for unwrapped
proximity: every particle whose raw coordinate differences from the query
point are at most 42 in each axis (one grid cell) is yielded by neighbors
queried there; pairs whose closeness exists only through the periodic
boundary can be missed, as the counterexample shows. -/
theorem c4_unwrapped_neighbors_complete (positions : List (ℝ × ℝ)) (q : ℕ)
    (x y qx qy : ℝ) (hq : positions[q]? = some (qx, qy))
    (hx : |qx - x| ≤ 42) (hy : |qy - y| ≤ 42) :
    q ∈ (build_grid positions).neighbors x y := by
  have hent : (q, ⌊qx / (42.0 : ℝ)⌋, ⌊qy / (42.0 : ℝ)⌋) ∈ (build_grid positions).entries := by
    have h := mem_insert_all positions ⟨42.0, []⟩ 0 q qx qy hq
    simpa using h
  have hdx : |qx / (42.0 : ℝ) - x / (42.0 : ℝ)| ≤ 1 := by
    rw [div_sub_div_same, abs_div, abs_of_nonneg (by norm_num : (0 : ℝ) ≤ 42.0),
      div_le_one (by norm_num)]
    calc |qx - x| ≤ 42 := hx
      _ ≤ 42.0 := by norm_num
  have hdy : |qy / (42.0 : ℝ) - y / (42.0 : ℝ)| ≤ 1 := by
    rw [div_sub_div_same, abs_div, abs_of_nonneg (by norm_num : (0 : ℝ) ≤ 42.0),
      div_le_one (by norm_num)]
    calc |qy - y| ≤ 42 := hy
      _ ≤ 42.0 := by norm_num
  have hfx := floor_within_one hdx
  have hfy := floor_within_one hdy
  simp only [SpatialGrid.neighbors, build_grid, insert_all_cell_size]
  rw [List.mem_flatMap]
  refine ⟨⌊qx / (42.0 : ℝ)⌋ - ⌊x / (42.0 : ℝ)⌋, ?_, ?_⟩
  · have h3 : ⌊qx / (42.0 : ℝ)⌋ - ⌊x / (42.0 : ℝ)⌋ = -1 ∨
        ⌊qx / (42.0 : ℝ)⌋ - ⌊x / (42.0 : ℝ)⌋ = 0 ∨
        ⌊qx / (42.0 : ℝ)⌋ - ⌊x / (42.0 : ℝ)⌋ = 1 := by omega
    rcases h3 with h3 | h3 | h3 <;> simp [h3]
  · rw [List.mem_flatMap]
    refine ⟨⌊qy / (42.0 : ℝ)⌋ - ⌊y / (42.0 : ℝ)⌋, ?_, ?_⟩
    · have h3 : ⌊qy / (42.0 : ℝ)⌋ - ⌊y / (42.0 : ℝ)⌋ = -1 ∨
          ⌊qy / (42.0 : ℝ)⌋ - ⌊y / (42.0 : ℝ)⌋ = 0 ∨
          ⌊qy / (42.0 : ℝ)⌋ - ⌊y / (42.0 : ℝ)⌋ = 1 := by omega
      rcases h3 with h3 | h3 | h3 <;> simp [h3]
    · have hcell : (⌊x / (42.0 : ℝ)⌋ + (⌊qx / (42.0 : ℝ)⌋ - ⌊x / (42.0 : ℝ)⌋),
          ⌊y / (42.0 : ℝ)⌋ + (⌊qy / (42.0 : ℝ)⌋ - ⌊y / (42.0 : ℝ)⌋)) =
          ((⌊qx / (42.0 : ℝ)⌋ : ℤ), (⌊qy / (42.0 : ℝ)⌋ : ℤ)) := by
        rw [Prod.mk.injEq]
        constructor <;> ring
      rw [hcell]
      exact mem_cellList_of_mem_entries (by simpa using hent)

/-- Claim C4 amended witness: two particles thirty apart on one axis; the
second is yielded by the neighbor query at the position of the first. -/
theorem c4_unwrapped_neighbors_complete_witness :
    1 ∈ (build_grid [(50, 50), (80, 50)]).neighbors 50 50 := by
  refine c4_unwrapped_neighbors_complete [(50, 50), (80, 50)] 1 50 50 80 50 rfl ?_ ?_
  · rw [show (80 : ℝ) - 50 = 30 by norm_num, abs_of_nonneg (by norm_num : (0 : ℝ) ≤ 30)]
    norm_num
  · rw [show (50 : ℝ) - 50 = 0 by norm_num, abs_zero]
    norm_num

end

end AtomSim
